import Mathlib

/-
Verification of the litert-lm-rs safety layer (src/src/lib.rs) against its
specification. The layer wraps a handle-based C inference API; the C library
itself lives outside this repository, so every native entry point is modelled
as a recorded trace event whose result is supplied by a stub environment
(spec section 6 lists the call families). All hand-written Rust of the layer
is embedded below; machine strings are Lean Strings (UTF-8 code units for
byte positions), native handles are Nat, and fallible operations return
Except values paired with the ordered list of native calls they issued.
-/

namespace LitertLm

/-- A NUL byte occurs in the UTF-8 encoding of a string exactly when the
string contains the character with code point 0; CString.new in the source
fails exactly on such strings. -/
def strHasNul (s : String) : Bool :=
  s.data.any (fun c => c == Char.ofNat 0)

/-- Byte position of the first NUL in the UTF-8 encoding of the string,
counting the UTF-8 sizes of the preceding characters; this is the position
the std NulError reports. -/
def firstNulBytePos : List Char → Nat
  | [] => 0
  | c :: cs => if c == Char.ofNat 0 then 0 else c.utf8Size + firstNulBytePos cs

/-- Display text of the std NulError that CString.new returns on an embedded
NUL byte. -/
def nulErrorText (pos : Nat) : String :=
  "nul byte found in provided data at position: " ++ toString pos

/-- src/src/lib.rs lines 69-81: the error type of the layer, a struct holding
a single String message and nothing else. -/
structure Error where
  message : String
deriving Repr, DecidableEq

/-- src/src/lib.rs lines 75-81: Error.new stores the message. -/
def Error.new (message : String) : Error := ⟨message⟩

/-- src/src/lib.rs lines 83-87: the Display implementation prepends a fixed
prefix to the stored message. -/
def Error.display (e : Error) : String := "LiteRT-LM Error: " ++ e.message

/-- src/src/lib.rs lines 52-58: the backend selector. -/
inductive Backend
  | Cpu
  | Gpu
deriving Repr, DecidableEq

/-- src/src/lib.rs lines 60-67: Backend.as_str. -/
def Backend.as_str : Backend → String
  | .Cpu => "cpu"
  | .Gpu => "gpu"

/-- Modelled from the spec: the native entry points of the C boundary (spec
section 6), one constructor per call family, recording the handle or text
arguments passed in. The C header is outside this repository, so calls are
trace events and their results come from stub environments. -/
inductive NativeCall
  | settings_create (modelPath backendStr : String)
  | settings_delete (h : Nat)
  | engine_create (h : Nat)
  | engine_delete (h : Nat)
  | engine_create_session (h : Nat)
  | session_delete (h : Nat)
  | generate_content (h : Nat)
  | get_response_text_at (h : Nat) (idx : Nat)
  | responses_delete (h : Nat)
  | get_benchmark_info (h : Nat)
  | get_time_to_first_token (h : Nat)
  | get_num_prefill_turns (h : Nat)
  | get_num_decode_turns (h : Nat)
  | benchmark_info_delete (h : Nat)
deriving Repr, DecidableEq

/-- Whether a call is a settings-destroy call (any handle). -/
def NativeCall.isSettingsDelete : NativeCall → Bool
  | .settings_delete _ => true
  | _ => false

/-- Whether a call is an engine-destroy call (any handle). -/
def NativeCall.isEngineDelete : NativeCall → Bool
  | .engine_delete _ => true
  | _ => false

/-- Whether a call is a result-buffer-destroy call (any handle). -/
def NativeCall.isResponsesDelete : NativeCall → Bool
  | .responses_delete _ => true
  | _ => false

/-- Whether a call is a metrics-buffer-destroy call (any handle). -/
def NativeCall.isBenchmarkDelete : NativeCall → Bool
  | .benchmark_info_delete _ => true
  | _ => false

/-- Modelled from the spec: stub results of the two construction entry points
used by Engine.new; none models a null handle. -/
structure EngineEnv where
  settingsResult : Option Nat
  engineResult : Option Nat
deriving Repr, DecidableEq

/-- src/src/lib.rs lines 102-105: the engine owner holds the raw engine
handle and the settings handle it keeps alive. -/
structure Engine where
  raw : Nat
  settings : Nat
deriving Repr, DecidableEq

/-- src/src/lib.rs lines 127-158 (Engine.new): convert the model path and the
backend string, failing on an embedded NUL before any native call; then
create the settings object, failing if null; then create the engine, on
failure deleting the settings object before returning the error. -/
def Engine.new (env : EngineEnv) (model_path : String) (backend : Backend) :
    Except Error Engine × List NativeCall :=
  if strHasNul model_path then
    (.error (Error.new ("Invalid model path: " ++
      nulErrorText (firstNulBytePos model_path.data))), [])
  else if strHasNul backend.as_str then
    (.error (Error.new ("Invalid backend string: " ++
      nulErrorText (firstNulBytePos backend.as_str.data))), [])
  else
    match env.settingsResult with
    | none =>
      (.error (Error.new "Failed to create engine settings"),
       [.settings_create model_path backend.as_str])
    | some settings =>
      match env.engineResult with
      | none =>
        (.error (Error.new "Failed to create engine"),
         [.settings_create model_path backend.as_str,
          .engine_create settings, .settings_delete settings])
      | some engine =>
        (.ok ⟨engine, settings⟩,
         [.settings_create model_path backend.as_str, .engine_create settings])

/-- src/src/lib.rs lines 187-194 (the Drop implementation of Engine): delete
the engine handle, then the settings handle. -/
def Engine.drop (e : Engine) : List NativeCall :=
  [.engine_delete e.raw, .settings_delete e.settings]

/-- src/src/lib.rs lines 204-206: the session owner holds only the raw
session handle. -/
structure Session where
  raw : Nat
deriving Repr, DecidableEq

/-- src/src/lib.rs lines 174-184 (Engine.create_session): the stub argument
is the handle the native session-construct call returns, none for null. -/
def Engine.create_session (sessionResult : Option Nat) (e : Engine) :
    Except Error Session × List NativeCall :=
  match sessionResult with
  | none =>
    (.error (Error.new "Failed to create session"), [.engine_create_session e.raw])
  | some s =>
    (.ok ⟨s⟩, [.engine_create_session e.raw])

/-- src/src/lib.rs lines 298-304 (the Drop implementation of Session). -/
def Session.drop (s : Session) : List NativeCall :=
  [.session_delete s.raw]

/-- The Unicode replacement character U+FFFD emitted by lossy decoding. -/
def replacementChar : Char := Char.ofNat 0xFFFD

/-- Whether a byte is a UTF-8 continuation byte. -/
def isUtf8Cont (b : Nat) : Bool :=
  decide (0x80 ≤ b) && decide (b ≤ 0xBF)

/-- One step of Rust String.from_utf8_lossy (WHATWG maximal-subpart error
policy): given the first byte and the remaining bytes, return the decoded
character, or U+FFFD on an invalid sequence, together with how many
additional bytes beyond the first were consumed. -/
def utf8DecodeOne (b : Nat) (rest : List Nat) : Char × Nat :=
  if b < 0x80 then (Char.ofNat b, 0)
  else if decide (0xC2 ≤ b) && decide (b ≤ 0xDF) then
    match rest with
    | b1 :: _ =>
      if isUtf8Cont b1 then (Char.ofNat ((b - 0xC0) * 0x40 + (b1 - 0x80)), 1)
      else (replacementChar, 0)
    | [] => (replacementChar, 0)
  else if decide (0xE0 ≤ b) && decide (b ≤ 0xEF) then
    let lo := if b == 0xE0 then 0xA0 else 0x80
    let hi := if b == 0xED then 0x9F else 0xBF
    match rest with
    | b1 :: rest1 =>
      if decide (lo ≤ b1) && decide (b1 ≤ hi) then
        match rest1 with
        | b2 :: _ =>
          if isUtf8Cont b2 then
            (Char.ofNat ((b - 0xE0) * 0x1000 + (b1 - 0x80) * 0x40 + (b2 - 0x80)), 2)
          else (replacementChar, 1)
        | [] => (replacementChar, 1)
      else (replacementChar, 0)
    | [] => (replacementChar, 0)
  else if decide (0xF0 ≤ b) && decide (b ≤ 0xF4) then
    let lo := if b == 0xF0 then 0x90 else 0x80
    let hi := if b == 0xF4 then 0x8F else 0xBF
    match rest with
    | b1 :: rest1 =>
      if decide (lo ≤ b1) && decide (b1 ≤ hi) then
        match rest1 with
        | b2 :: rest2 =>
          if isUtf8Cont b2 then
            match rest2 with
            | b3 :: _ =>
              if isUtf8Cont b3 then
                (Char.ofNat ((b - 0xF0) * 0x40000 + (b1 - 0x80) * 0x1000 +
                  (b2 - 0x80) * 0x40 + (b3 - 0x80)), 3)
              else (replacementChar, 2)
            | [] => (replacementChar, 2)
          else (replacementChar, 1)
        | [] => (replacementChar, 1)
      else (replacementChar, 0)
    | [] => (replacementChar, 0)
  else (replacementChar, 0)

/-- Fuel-bounded decode loop; each step consumes at least one byte, so fuel
equal to the byte count suffices. -/
def utf8LossyLoop : Nat → List Nat → List Char
  | _, [] => []
  | 0, _ :: _ => []
  | fuel + 1, b :: rest =>
    let d := utf8DecodeOne b rest
    d.1 :: utf8LossyLoop fuel (rest.drop d.2)

/-- Rust String.from_utf8_lossy over a byte list; CStr.to_string_lossy in
the source applies this to the bytes behind the returned text pointer. -/
def from_utf8_lossy (bs : List Nat) : String :=
  String.mk (utf8LossyLoop bs.length bs)

/-- Modelled from the spec: stub results of the generate boundary calls.
responsesResult is the result buffer handle that session-generate returns,
none for null; textAt0 is the byte content behind the first response text
pointer, none when that pointer is null. -/
structure GenerateEnv where
  responsesResult : Option Nat
  textAt0 : Option (List Nat)
deriving Repr, DecidableEq

/-- src/src/lib.rs lines 233-267 (Session.generate): convert the prompt,
failing on an embedded NUL before any native call; call generate-content,
failing if the result buffer is null; read the first response text pointer;
if it is null, delete the result buffer and fail; otherwise copy the text
with lossy decoding, delete the result buffer, and return the owned copy. -/
def Session.generate (env : GenerateEnv) (s : Session) (prompt : String) :
    Except Error String × List NativeCall :=
  if strHasNul prompt then
    (.error (Error.new ("Invalid prompt: " ++
      nulErrorText (firstNulBytePos prompt.data))), [])
  else
    match env.responsesResult with
    | none =>
      (.error (Error.new "Failed to generate content"), [.generate_content s.raw])
    | some responses =>
      match env.textAt0 with
      | none =>
        (.error (Error.new "No response generated"),
         [.generate_content s.raw, .get_response_text_at responses 0,
          .responses_delete responses])
      | some bytes =>
        (.ok (from_utf8_lossy bytes),
         [.generate_content s.raw, .get_response_text_at responses 0,
          .responses_delete responses])

/-- src/src/lib.rs lines 312-319: the plain value snapshot returned by
get_benchmark_info. -/
structure BenchmarkInfo where
  time_to_first_token : Float
  num_prefill_turns : Nat
  num_decode_turns : Nat

/-- Modelled from the spec: stub results of the metrics boundary calls.
infoResult is the metrics buffer handle or null; ttft is the floating
seconds value; the two turn counts are integer counts returned by the
native accessors, modelled as signed native integers because the C header
is outside this repository and the source applies an unchecked cast to
usize to each of them. -/
structure BenchmarkEnv where
  infoResult : Option Nat
  ttft : Float
  prefillTurns : Int
  decodeTurns : Int

/-- Bit width of usize on the 64-bit target platform. -/
def usizeBits : Nat := 64

/-- The Rust numeric cast of a signed integer value to usize: twos-complement
truncation to the platform word size. -/
def intAsUsize (v : Int) : Nat :=
  if 0 ≤ v then v.toNat % 2 ^ usizeBits
  else (2 ^ usizeBits - (-v).toNat % 2 ^ usizeBits) % 2 ^ usizeBits

/-- src/src/lib.rs lines 272-295 (Session.get_benchmark_info): call the
metrics fetch, failing if the buffer is null; read the three scalars through
the accessors; build the snapshot, casting both counts to usize; delete the
metrics buffer; return the snapshot. -/
def Session.get_benchmark_info (env : BenchmarkEnv) (s : Session) :
    Except Error BenchmarkInfo × List NativeCall :=
  match env.infoResult with
  | none =>
    (.error (Error.new "Failed to get benchmark info"), [.get_benchmark_info s.raw])
  | some info =>
    (.ok ⟨env.ttft, intAsUsize env.prefillTurns, intAsUsize env.decodeTurns⟩,
     [.get_benchmark_info s.raw, .get_time_to_first_token info,
      .get_num_prefill_turns info, .get_num_decode_turns info,
      .benchmark_info_delete info])

/-- The message of an error result, none on success; used to compare which
failure a call reports. -/
def exceptErrMessage {α : Type} : Except Error α → Option String
  | .error e => some e.message
  | .ok _ => none

/-- One public operation of the layer at the ownership level; numeric ids
stand for the Engine and Session owner values held by the caller. -/
inductive ApiOp
  | new_engine
  | create_session (e : Nat)
  | drop_engine (e : Nat)
  | generate (s : Nat)
  | drop_session (s : Nat)
deriving Repr, DecidableEq

/-- Caller-side ownership state: which engine and session owner values are
live, and which engine each session was created from. -/
structure OwnState where
  nextEngine : Nat
  nextSession : Nat
  liveEngines : List Nat
  liveSessions : List Nat
  parentOf : List (Nat × Nat)
deriving Repr, DecidableEq

/-- The caller starts with no owners. -/
def OwnState.init : OwnState := ⟨0, 0, [], [], []⟩

/-- Which operations the public interface accepts, exactly as the Rust type
system enforces it on the source: create_session takes a shared reference to
a live Engine value; generate takes a shared reference to a live Session
value; drop_engine needs only the live Engine value itself, because Session
(src/src/lib.rs lines 204-206) stores a raw pointer and carries no lifetime
parameter and no shared ownership of the Engine, so the borrow checker
accepts dropping the Engine while Sessions created from it are live. -/
def OwnState.step (w : OwnState) : ApiOp → Option OwnState
  | .new_engine =>
    some { w with nextEngine := w.nextEngine + 1,
                  liveEngines := w.nextEngine :: w.liveEngines }
  | .create_session e =>
    if e ∈ w.liveEngines then
      some { w with nextSession := w.nextSession + 1,
                    liveSessions := w.nextSession :: w.liveSessions,
                    parentOf := (w.nextSession, e) :: w.parentOf }
    else none
  | .drop_engine e =>
    if e ∈ w.liveEngines then
      some { w with liveEngines := w.liveEngines.erase e }
    else none
  | .generate s =>
    if s ∈ w.liveSessions then some w else none
  | .drop_session s =>
    if s ∈ w.liveSessions then
      some { w with liveSessions := w.liveSessions.erase s }
    else none

/-- The engine a session was created from. -/
def OwnState.parentEngine (w : OwnState) (s : Nat) : Option Nat :=
  w.parentOf.lookup s

/-- Run a sequence of public operations; the Bool records whether some
generate call executed on a session whose parent engine had already been
destroyed; none when some operation was not accepted by the interface. -/
def OwnState.runOps : OwnState → List ApiOp → Option (OwnState × Bool)
  | w, [] => some (w, false)
  | w, op :: ops =>
    match w.step op with
    | none => none
    | some w2 =>
      let bad :=
        match op with
        | .generate s =>
          match w.parentEngine s with
          | some e => decide (e ∉ w.liveEngines)
          | none => false
        | _ => false
      match OwnState.runOps w2 ops with
      | none => none
      | some (wf, b) => some (wf, bad || b)

/-- The backend strings of the source contain no NUL byte. -/
lemma backend_as_str_no_nul (b : Backend) : strHasNul b.as_str = false := by
  cases b <;> decide

/-- The usize cast of a signed integer value is its residue modulo the word
modulus: the operational twos-complement truncation agrees with reduction
modulo 2 to the 64. -/
lemma intAsUsize_emod (v : Int) : (intAsUsize v : Int) = v % 2 ^ 64 := by
  have hN : (2 : Nat) ^ 64 = 18446744073709551616 := by norm_num
  have hZ : (2 : Int) ^ 64 = 18446744073709551616 := by norm_num
  unfold intAsUsize usizeBits
  rw [hZ]
  simp only [hN]
  split <;> omega

/-- The first sixteen characters of every invalid-model-path message are
fixed, whatever the reported position text is. -/
lemma invalid_path_msg_take (x : String) :
    ("Invalid model path: " ++ x).data.take 16 = "Invalid model pa".data := by
  have hd : ("Invalid model path: " ++ x).data =
      "Invalid model path: ".data ++ x.data := rfl
  rw [hd, List.take_append_eq_append_take]
  have h20 : ("Invalid model path: ".data).length = 20 := by decide
  rw [h20]
  simp

/-- Claim C1, counterexample: the operation sequence that creates an engine,
creates a session from it, drops the engine, and then calls generate on the
session is accepted end to end by the public interface, and the generate
call executes while the parent engine is already destroyed. Session stores
only a raw pointer (src/src/lib.rs lines 204-206) and create_session takes a
shared reference and returns an untethered Session (lines 174-184), so no
borrow ties the session to the engine owner. -/
theorem session_outlives_engine_reachable :
    (OwnState.init.runOps
      [ApiOp.new_engine, ApiOp.create_session 0, ApiOp.drop_engine 0,
       ApiOp.generate 0]).map Prod.snd = some true := by
  decide

/-- Claim C1, amended: every session is minted from a live engine, because
create_session is only callable on a live Engine value; but the public
interface does not prevent destroying the engine while the session is alive
and then using it (see the counterexample), so engine-outlives-session is
caller discipline, not a structural guarantee. -/
theorem create_session_requires_live_engine (w : OwnState) (e : Nat)
    (h : (w.step (ApiOp.create_session e)).isSome = true) :
    e ∈ w.liveEngines := by
  by_cases hm : e ∈ w.liveEngines
  · exact hm
  · simp [OwnState.step, hm] at h

/-- Witness for the amended claim C1 at a concrete state: a state holding
one live engine accepts create_session on it. -/
theorem create_session_requires_live_engine_holds :
    (0 : Nat) ∈ (OwnState.mk 1 0 [0] [] []).liveEngines :=
  create_session_requires_live_engine (OwnState.mk 1 0 [0] [] []) 0 (by decide)

/-- Claim C2: for a prompt without an embedded NUL, generate fails with the
generation-failed error exactly when the native generate call returns a null
result buffer, fails with the empty-response error exactly when the buffer
is non-null but the first text pointer is null, and whenever the buffer was
non-null the result-destroy call appears exactly once in the emitted call
trace, on the empty-response path as well as on success. -/
theorem generate_error_paths (env : GenerateEnv) (s : Session) (prompt : String)
    (h : strHasNul prompt = false) :
    ((Session.generate env s prompt).1 =
        .error (Error.new "Failed to generate content") ↔ env.responsesResult = none)
    ∧ ((Session.generate env s prompt).1 =
        .error (Error.new "No response generated") ↔
          env.responsesResult ≠ none ∧ env.textAt0 = none)
    ∧ (env.responsesResult ≠ none →
        (Session.generate env s prompt).2.countP (fun c => c.isResponsesDelete) = 1) := by
  rcases env with ⟨r, t⟩
  rcases r with _ | r <;> rcases t with _ | t <;>
    simp [Session.generate, h, Error.new, NativeCall.isResponsesDelete]

/-- Witness for claim C2 at concrete stub environments: a null text pointer
under a non-null buffer yields the empty-response error, and a null buffer
yields the generation-failed error. -/
theorem generate_error_paths_instance :
    (Session.generate ⟨some 7, none⟩ ⟨3⟩ "hi").1 =
      .error (Error.new "No response generated")
    ∧ (Session.generate ⟨none, none⟩ ⟨3⟩ "hi").1 =
      .error (Error.new "Failed to generate content") :=
  ⟨(generate_error_paths ⟨some 7, none⟩ ⟨3⟩ "hi" (by decide)).2.1.mpr
      ⟨by simp, rfl⟩,
   (generate_error_paths ⟨none, none⟩ ⟨3⟩ "hi" (by decide)).1.mpr rfl⟩

/-- Claim C3, counterexample: an error value of the layer carries nothing
but its human-readable message: the error type is in bijection with the
message string, so no structured kind can be read off an error other than by
inspecting the message text; concretely, a failed engine construction
returns exactly a wrapped message string. This refutes the claim that error
values expose a distinguishable kind that is not merely the message. -/
theorem error_carries_only_a_message :
    Nonempty (Error ≃ String)
    ∧ (Engine.new ⟨none, none⟩ "m" Backend.Cpu).1 =
        .error (Error.new "Failed to create engine settings") :=
  ⟨⟨⟨Error.message, Error.new, fun _ => rfl, fun _ => rfl⟩⟩, rfl⟩

/-- Claim C3, amended: every failure of the layer carries a human-readable
message, and the five failure conditions named by the spec (invalid
argument, native construction failed, generation failed, empty response,
metrics unavailable) produce five pairwise distinct message texts, so they
can be told apart, but only by inspecting the message string. -/
theorem failures_distinguished_by_message_text :
    exceptErrMessage (Engine.new ⟨some 1, some 2⟩ "\x00" Backend.Cpu).1 =
      some ("Invalid model path: " ++ nulErrorText 0)
    ∧ exceptErrMessage (Engine.new ⟨none, none⟩ "m" Backend.Cpu).1 =
      some "Failed to create engine settings"
    ∧ exceptErrMessage (Session.generate ⟨none, none⟩ ⟨1⟩ "p").1 =
      some "Failed to generate content"
    ∧ exceptErrMessage (Session.generate ⟨some 1, none⟩ ⟨1⟩ "p").1 =
      some "No response generated"
    ∧ exceptErrMessage (Session.get_benchmark_info ⟨none, 0.0, 0, 0⟩ ⟨1⟩).1 =
      some "Failed to get benchmark info"
    ∧ List.Pairwise (fun a b => a ≠ b)
        ["Invalid model path: " ++ nulErrorText 0,
         "Failed to create engine settings",
         "Failed to generate content",
         "No response generated",
         "Failed to get benchmark info"] := by
  refine ⟨rfl, rfl, rfl, rfl, rfl, ?_⟩
  decide

/-- Claim C4: when the native generate call returns a non-null result buffer
whose first text pointer is non-null, generate returns the lossy UTF-8
decoding of the referenced bytes as an owned string, the emitted call trace
reads the text (index 1) strictly before the single result-destroy call
(index 2), and the result-destroy call appears exactly once. -/
theorem generate_success_copies_then_deletes (env : GenerateEnv) (s : Session)
    (prompt : String) (r : Nat) (bytes : List Nat)
    (h : strHasNul prompt = false) (hr : env.responsesResult = some r)
    (ht : env.textAt0 = some bytes) :
    (Session.generate env s prompt).1 = .ok (from_utf8_lossy bytes)
    ∧ (Session.generate env s prompt).2 =
        [.generate_content s.raw, .get_response_text_at r 0, .responses_delete r]
    ∧ (Session.generate env s prompt).2.countP (fun c => c.isResponsesDelete) = 1 := by
  simp [Session.generate, h, hr, ht, NativeCall.isResponsesDelete]

/-- Witness for claim C4 at the concrete input of the spec: first-response
text bytes spelling Paris come back as the owned string Paris. -/
theorem generate_success_paris_instance :
    (Session.generate ⟨some 5, some [0x50, 0x61, 0x72, 0x69, 0x73]⟩ ⟨2⟩
        "What is the capital of France?").1 = .ok "Paris" :=
  (generate_success_copies_then_deletes
    ⟨some 5, some [0x50, 0x61, 0x72, 0x69, 0x73]⟩ ⟨2⟩
    "What is the capital of France?" 5 [0x50, 0x61, 0x72, 0x69, 0x73]
    (by decide) rfl rfl).1

/-- Claim C5: when the settings construction returns a non-null handle but
the engine construction returns null, Engine.new returns the
construction-failed error and the emitted call trace deletes exactly that
settings handle, exactly once, before returning. -/
theorem engine_create_failure_releases_settings (env : EngineEnv) (path : String)
    (b : Backend) (st : Nat) (h : strHasNul path = false)
    (hs : env.settingsResult = some st) (he : env.engineResult = none) :
    (Engine.new env path b).1 = .error (Error.new "Failed to create engine")
    ∧ (Engine.new env path b).2 =
        [.settings_create path b.as_str, .engine_create st, .settings_delete st]
    ∧ (Engine.new env path b).2.countP (fun c => c.isSettingsDelete) = 1
    ∧ NativeCall.settings_delete st ∈ (Engine.new env path b).2 := by
  simp [Engine.new, h, backend_as_str_no_nul b, hs, he, NativeCall.isSettingsDelete]

/-- Witness for claim C5 at a concrete stub environment. -/
theorem engine_create_failure_instance :
    (Engine.new ⟨some 11, none⟩ "model.tflite" Backend.Gpu).1 =
      .error (Error.new "Failed to create engine")
    ∧ (Engine.new ⟨some 11, none⟩ "model.tflite" Backend.Gpu).2 =
      [.settings_create "model.tflite" "gpu", .engine_create 11,
       .settings_delete 11] :=
  ⟨(engine_create_failure_releases_settings ⟨some 11, none⟩ "model.tflite"
      Backend.Gpu 11 (by decide) rfl rfl).1,
   (engine_create_failure_releases_settings ⟨some 11, none⟩ "model.tflite"
      Backend.Gpu 11 (by decide) rfl rfl).2.1⟩

/-- Claim C6: for a model path or backend text containing an embedded NUL
byte, Engine.new returns the invalid-model-path error and the emitted call
trace is empty: no native entry point is invoked at all. The backend
disjunct is vacuous because the two backend strings of the source contain no
NUL, so the error is always the model-path one. -/
theorem invalid_text_no_native_calls (env : EngineEnv) (path : String)
    (b : Backend)
    (h : strHasNul path = true ∨ strHasNul b.as_str = true) :
    (Engine.new env path b).1 =
      .error (Error.new ("Invalid model path: " ++
        nulErrorText (firstNulBytePos path.data)))
    ∧ (Engine.new env path b).2 = [] := by
  have hp : strHasNul path = true := by
    rcases h with hp | hb
    · exact hp
    · rw [backend_as_str_no_nul b] at hb
      cases hb
  simp [Engine.new, hp]

/-- Witness for claim C6 at a concrete path with an embedded NUL at byte
position 1: the call fails with the invalid-path message and issues no
native call. -/
theorem invalid_text_instance :
    (Engine.new ⟨some 1, some 2⟩ "a\x00b" Backend.Cpu).1 =
      .error (Error.new
        "Invalid model path: nul byte found in provided data at position: 1")
    ∧ (Engine.new ⟨some 1, some 2⟩ "a\x00b" Backend.Cpu).2 = [] :=
  invalid_text_no_native_calls ⟨some 1, some 2⟩ "a\x00b" Backend.Cpu
    (Or.inl (by decide))

/-- Claim C7, counterexample: the returned prefill field is not always equal
to the value the accessor read: a native count of minus one is stored as the
wrapped usize value, because the source applies an unchecked cast to usize
(src/src/lib.rs lines 287-288). -/
theorem benchmark_negative_count_not_exact :
    ((Session.get_benchmark_info ⟨some 1, 0.0, -1, 0⟩ ⟨1⟩).1.toOption.map
        (fun i => (i.num_prefill_turns : Int))) = some 18446744073709551615
    ∧ (18446744073709551615 : Int) ≠ (-1 : Int) := by
  exact ⟨rfl, by decide⟩

/-- Claim C7, amended: get_benchmark_info fails with the metrics-unavailable
error exactly when the native metrics fetch returns null; otherwise the
emitted call trace reads the three scalars (indices 1 to 3) strictly before
the single metrics-destroy call (index 4), and the returned snapshot holds
the time-to-first-token exactly and each turn counter cast to usize, which
equals the value read whenever that value is representable in usize
(nonnegative and below 2 to the 64), as in the 0.042, 1, 7 example. -/
theorem get_benchmark_info_spec (env : BenchmarkEnv) (s : Session) :
    ((Session.get_benchmark_info env s).1 =
        .error (Error.new "Failed to get benchmark info") ↔ env.infoResult = none)
    ∧ (∀ info, env.infoResult = some info →
        (Session.get_benchmark_info env s).1 =
          .ok ⟨env.ttft, intAsUsize env.prefillTurns, intAsUsize env.decodeTurns⟩
        ∧ (Session.get_benchmark_info env s).2 =
            [.get_benchmark_info s.raw, .get_time_to_first_token info,
             .get_num_prefill_turns info, .get_num_decode_turns info,
             .benchmark_info_delete info]
        ∧ (Session.get_benchmark_info env s).2.countP
            (fun c => c.isBenchmarkDelete) = 1
        ∧ (0 ≤ env.prefillTurns → env.prefillTurns < 2 ^ 64 →
            (intAsUsize env.prefillTurns : Int) = env.prefillTurns)
        ∧ (0 ≤ env.decodeTurns → env.decodeTurns < 2 ^ 64 →
            (intAsUsize env.decodeTurns : Int) = env.decodeTurns)) := by
  constructor
  · rcases hres : env.infoResult with _ | info <;>
      simp [Session.get_benchmark_info, hres, Error.new]
  · intro info hinfo
    refine ⟨?_, ?_, ?_, ?_, ?_⟩
    · simp [Session.get_benchmark_info, hinfo]
    · simp [Session.get_benchmark_info, hinfo]
    · simp [Session.get_benchmark_info, hinfo, NativeCall.isBenchmarkDelete]
    · intro h0 hlt
      rw [intAsUsize_emod]
      exact Int.emod_eq_of_lt h0 hlt
    · intro h0 hlt
      rw [intAsUsize_emod]
      exact Int.emod_eq_of_lt h0 hlt

/-- Witness for the amended claim C7 at the concrete metrics of the spec:
time-to-first-token 0.042, prefill turns 1, decode turns 7 come back exactly,
and a representable count is preserved exactly by the cast. -/
theorem get_benchmark_info_instance :
    (Session.get_benchmark_info ⟨some 3, 0.042, 1, 7⟩ ⟨1⟩).1 =
      .ok ⟨0.042, 1, 7⟩
    ∧ (intAsUsize 7 : Int) = 7 :=
  ⟨((get_benchmark_info_spec ⟨some 3, 0.042, 1, 7⟩ ⟨1⟩).2 3 rfl).1,
   ((get_benchmark_info_spec ⟨some 3, 0.042, 1, 7⟩ ⟨1⟩).2 3 rfl).2.2.2.2
     (by decide) (by decide)⟩

/-- Claim C8: destroying a successfully constructed engine owner emits the
engine-destroy call first and the settings-destroy call second, each exactly
once, in that order. -/
theorem engine_drop_order (e : Engine) :
    (Engine.drop e).countP (fun c => c.isEngineDelete) = 1
    ∧ (Engine.drop e).countP (fun c => c.isSettingsDelete) = 1
    ∧ Engine.drop e = [.engine_delete e.raw, .settings_delete e.settings] :=
  ⟨rfl, rfl, rfl⟩

/-- Claim C9: the backend-string conversion failure branch of Engine.new is
unreachable: every backend selector renders as cpu or gpu, neither contains
a NUL byte, and no error Engine.new can return begins with the
invalid-backend text, so only the model path can trigger the conversion
failure. -/
theorem backend_conversion_failure_unreachable :
    (∀ b : Backend, (b.as_str = "cpu" ∨ b.as_str = "gpu")
        ∧ strHasNul b.as_str = false)
    ∧ (∀ (env : EngineEnv) (path : String) (b : Backend) (e : Error),
        (Engine.new env path b).1 = .error e →
        e.message.data.take 16 ≠ "Invalid backend ".data) := by
  constructor
  · intro b
    cases b
    · exact ⟨Or.inl rfl, by decide⟩
    · exact ⟨Or.inr rfl, by decide⟩
  · intro env path b e he
    have hb := backend_as_str_no_nul b
    by_cases hp : strHasNul path = true
    · simp [Engine.new, hp, Error.new] at he
      rw [← he]
      rw [invalid_path_msg_take]
      decide
    · have hp2 : strHasNul path = false := by
        revert hp
        cases strHasNul path <;> simp
      rcases hst : env.settingsResult with _ | st
      · simp [Engine.new, hp2, hb, hst, Error.new] at he
        rw [← he]
        decide
      · rcases hen : env.engineResult with _ | en
        · simp [Engine.new, hp2, hb, hst, hen, Error.new] at he
          rw [← he]
          decide
        · simp [Engine.new, hp2, hb, hst, hen] at he

/-- Witness for claim C9: the settings-construction failure error does not
begin with the invalid-backend text. -/
theorem backend_conversion_failure_instance :
    (Error.new "Failed to create engine settings").message.data.take 16 ≠
      "Invalid backend ".data :=
  backend_conversion_failure_unreachable.2 ⟨none, none⟩ "m" Backend.Cpu
    (Error.new "Failed to create engine settings") rfl

/-- Claim C10: the turn counters are converted with an unchecked cast: for
every value the native accessor returns, the snapshot field equals that
value reduced modulo 2 to the word size, so a negative or oversized count
wraps instead of producing an error. -/
theorem benchmark_counts_wrap :
    (∀ v : Int, (intAsUsize v : Int) = v % 2 ^ 64)
    ∧ (∀ (env : BenchmarkEnv) (s : Session) (info : Nat),
        env.infoResult = some info →
        ((Session.get_benchmark_info env s).1.toOption.map
            (fun i => ((i.num_prefill_turns : Int), (i.num_decode_turns : Int))))
          = some (env.prefillTurns % 2 ^ 64, env.decodeTurns % 2 ^ 64)) := by
  refine ⟨intAsUsize_emod, ?_⟩
  intro env s info hinfo
  simp [Session.get_benchmark_info, hinfo, Except.toOption, intAsUsize_emod]

/-- Witness for claim C10 at concrete counts: minus five wraps to its
residue modulo the word modulus and three passes through. -/
theorem benchmark_counts_wrap_instance :
    ((Session.get_benchmark_info ⟨some 1, 0.0, -5, 3⟩ ⟨1⟩).1.toOption.map
        (fun i => ((i.num_prefill_turns : Int), (i.num_decode_turns : Int))))
      = some (18446744073709551611, 3) :=
  benchmark_counts_wrap.2 ⟨some 1, 0.0, -5, 3⟩ ⟨1⟩ 1 rfl

end LitertLm

